import Mathlib

/-!
Verification of the write-ahead log core of `raiden/storage/wal.py`.

The module under `src/` is `raiden/storage/wal.py`.  Its collaborators
(`raiden.storage.sqlite.SerializedSQLiteStorage`, the ULID identifier scheme
and `raiden.transfer.architecture.StateManager`) belong to the repository but
are not part of the provided sources, so they are modelled from the spec's
collaborator contracts (PURPOSE/DATA MODEL/EXTERNAL INTERFACES sections).
The functions and classes of `wal.py` itself are embedded faithfully from the
source: `restore_or_init_snapshot`, `replay_unapplied_state_changes`,
`restore_state`, `SavedState`, `_AtomicStateChangeDispatcher` and
`WriteAheadLog`.

`State`, `StateChange` and `Event` payloads are opaque; the development is
parametric in the three types `S`, `C`, `E`.  Machine-level serialization,
checksummed addresses and structured logging are out of the spec's scope and
have no observable effect on the modelled state, so they are omitted.
-/

namespace RaidenWal

/-- Modelled from the spec: the identifier scheme of `raiden.storage.sqlite`.
`low` and `high` are the `LOW_STATECHANGE_ULID` / `HIGH_STATECHANGE_ULID`
sentinels; `real n` is an issued ULID.  The sentinels bracket the issuable
range and are never assigned to a record. -/
inductive Ulid where
  | low : Ulid
  | real : Nat → Ulid
  | high : Ulid
deriving DecidableEq, Repr

/-- Total order on identifiers: `low` precedes every real ULID, `high`
succeeds every real ULID, real ULIDs compare by issue counter. -/
def Ulid.le : Ulid → Ulid → Bool
  | .low, _ => true
  | _, .high => true
  | .real a, .real b => a ≤ b
  | .real _, .low => false
  | .high, _ => false

/-- Strict version of the identifier order. -/
def Ulid.lt : Ulid → Ulid → Bool
  | .low, .low => false
  | .low, _ => true
  | .real _, .low => false
  | .real a, .real b => a < b
  | .real _, .high => true
  | .high, _ => false

/-- A persisted snapshot row: `(State, StateChangeID, count)`, mirroring the
snapshot records returned by `get_snapshot_before_state_change`. -/
structure Snapshot (S : Type) where
  data : S
  state_change_identifier : Ulid
  state_change_qty : Nat
deriving Repr

/-- An ID range as passed to `get_statechanges_by_range`. -/
structure Range where
  first : Ulid
  last : Ulid
deriving DecidableEq, Repr

/-- Modelled from the spec: the durable store
(`raiden.storage.sqlite.SerializedSQLiteStorage`).  `state_changes` and
`events` are the appended rows in append order, each tagged with its issued
identifier; `events` rows carry `(event_id, state_change_id, payload)`.
`next_state_change_id` / `next_event_id` are the monotonic ULID factories for
the two identifier classes. -/
structure Storage (S C E : Type) where
  state_changes : List (Nat × C)
  events : List (Nat × Nat × E)
  snapshots : List (Snapshot S)
  next_state_change_id : Nat
  next_event_id : Nat

/-- Modelled from the spec: `get_latest_snapshot_before(id)` returns the
latest snapshot whose StateChangeID is `≤ id` (the stored snapshot with the
greatest such identifier, the most recently written one on ties). -/
def Storage.get_snapshot_before_state_change (st : Storage S C E) (bound : Ulid) :
    Option (Snapshot S) :=
  st.snapshots.foldl
    (fun acc sn =>
      if Ulid.le sn.state_change_identifier bound then
        match acc with
        | none => some sn
        | some best =>
          if Ulid.le best.state_change_identifier sn.state_change_identifier then some sn
          else acc
      else acc)
    none

/-- Modelled from the spec: `get_state_changes_in_range(id_range)` returns, in
storage order, the payloads of the state changes whose identifier lies in the
range, exclusive of `first` and inclusive of `last` (the convention fixed by
the recovery protocol: the replayed range is `(snapshot.StateChangeID,
state_change_id]`). -/
def Storage.get_statechanges_by_range (st : Storage S C E) (r : Range) : List C :=
  (st.state_changes.filter
    (fun p => Ulid.lt r.first (Ulid.real p.1) && Ulid.le (Ulid.real p.1) r.last)).map Prod.snd

/-- Modelled from the spec: `write_first_state_snapshot` persists the given
state as the very first snapshot, at the LOW sentinel with count 0. -/
def Storage.write_first_state_snapshot (st : Storage S C E) (s : S) : Storage S C E :=
  { st with snapshots := st.snapshots ++ [⟨s, Ulid.low, 0⟩] }

/-- Modelled from the spec: `write_snapshot(state, id, count)` appends a
snapshot row; snapshots are immutable, a new one never overwrites an old one. -/
def Storage.write_state_snapshot (st : Storage S C E) (s : S) (id : Ulid) (qty : Nat) :
    Storage S C E :=
  { st with snapshots := st.snapshots ++ [⟨s, id, qty⟩] }

/-- Modelled from the spec: `write_state_change` issues a fresh StateChangeID
from the ULID factory and appends the state-change row under it. -/
def Storage.write_state_change (st : Storage S C E) (c : C) : Storage S C E × Nat :=
  ({ st with
      state_changes := st.state_changes ++ [(st.next_state_change_id, c)],
      next_state_change_id := st.next_state_change_id + 1 },
    st.next_state_change_id)

/-- Modelled from the spec: `write_events` issues a fresh EventID per event and
appends each row tagged with the producing state change's identifier. -/
def Storage.write_events (st : Storage S C E) (scid : Nat) : List E → Storage S C E
  | [] => st
  | e :: rest =>
    Storage.write_events
      { st with
          events := st.events ++ [(st.next_event_id, scid, e)],
          next_event_id := st.next_event_id + 1 }
      scid rest

/-- The event rows produced for `evs` when the event ULID factory stands at
`start` and the producing state change has identifier `scid`. -/
def tagEvents (start scid : Nat) : List E → List (Nat × Nat × E)
  | [] => []
  | e :: rest => (start, scid, e) :: tagEvents (start + 1) scid rest

/-- A transition function `(State, StateChange) -> (State, [Event])`; `none`
models the function raising (a `TransitionFailure`). -/
def TransitionFunction (S C E : Type) : Type := S → C → Option (S × List E)

/-- Folding a list of state changes through a transition function; `none` as
soon as one application fails. -/
def applyMany (f : TransitionFunction S C E) : S → List C → Option S
  | s, [] => some s
  | s, c :: rest =>
    match f s c with
    | none => none
    | some (s2, _) => applyMany f s2 rest

/-- Modelled from the spec: `raiden.transfer.architecture.StateManager`, the
transition engine: one transition function and the exclusively-owned current
aggregate state. -/
structure StateManager (S C E : Type) where
  state_transition : TransitionFunction S C E
  current_state : S

/-- Modelled from the spec: the `StateManager(transition_function, state,
pending_state_changes)` constructor used during replay — it seeds the engine
with the snapshot state and applies each pending state change in order,
raising (`none`) if any application fails.  Events produced during replay are
discarded. -/
def StateManager.initReplay (f : TransitionFunction S C E) (s : S) (pending : List C) :
    Option (StateManager S C E) :=
  (applyMany f s pending).map (fun s2 => ⟨f, s2⟩)

/-- Modelled from the spec: `StateManager.dispatch` applies one state change,
replaces the owned state and returns the new state together with the produced
events; `none` models the transition function raising. -/
def StateManager.dispatch (sm : StateManager S C E) (c : C) :
    Option (StateManager S C E × List E) :=
  match sm.state_transition sm.current_state c with
  | none => none
  | some (s2, evs) => some (⟨sm.state_transition, s2⟩, evs)

/-- Modelled from the spec: `StateManager.copy` returns an independently-owned
deep copy of the state with the same transition function; on values a deep
copy is the value itself. -/
def StateManager.copy (sm : StateManager S C E) : StateManager S C E := sm

/-- Embeds `restore_or_init_snapshot` of `wal.py`: restore the latest snapshot
(query bounded by `HIGH_STATECHANGE_ULID`); if none exists, persist
`initial_state` as the first snapshot and return `(initial_state, LOW, 0)`.
Returns the resulting storage paired with the returned triple. -/
def restore_or_init_snapshot (storage : Storage S C E) (initial_state : S) :
    Storage S C E × (S × Ulid × Nat) :=
  match storage.get_snapshot_before_state_change Ulid.high with
  | some snapshot =>
    (storage, (snapshot.data, snapshot.state_change_identifier, snapshot.state_change_qty))
  | none =>
    (storage.write_first_state_snapshot initial_state, (initial_state, Ulid.low, 0))

/-- Embeds `replay_unapplied_state_changes` of `wal.py`: fetch the state
changes in the range, seed a fresh `StateManager` with the snapshot state,
apply them all, and return the count applied with the final state; `none`
models the transition function raising during replay. -/
def replay_unapplied_state_changes (f : TransitionFunction S C E) (storage : Storage S C E)
    (unapplied_range : Range) (state_snapshot : S) : Option (Nat × S) :=
  let unapplied := storage.get_statechanges_by_range unapplied_range
  (StateManager.initReplay f state_snapshot unapplied).map
    (fun sm => (unapplied.length, sm.current_state))

/-- Embeds `restore_state` of `wal.py`.  The outer `Option` models the call
raising during replay; the inner one is the function's own `Optional` result:
`some none` when no snapshot with StateChangeID ≤ the bound exists, and
`some (some s)` when restoration succeeds with state `s`. -/
def restore_state (f : TransitionFunction S C E) (storage : Storage S C E)
    (state_change_identifier : Ulid) : Option (Option S) :=
  match storage.get_snapshot_before_state_change state_change_identifier with
  | none => some none
  | some snapshot =>
    let unapplied := storage.get_statechanges_by_range
      ⟨snapshot.state_change_identifier, state_change_identifier⟩
    (StateManager.initReplay f snapshot.data unapplied).map
      (fun sm => some sm.current_state)

/-- Embeds the frozen dataclass `SavedState` of `wal.py`: the state and the id
of the state change that produced it, kept synchronized. -/
structure SavedState (S : Type) where
  state_change_id : Nat
  state : S

/-- Embeds `WriteAheadLog` of `wal.py`: the authoritative state manager, the
storage handle, and the `saved_state` attribute.  The Python class only
declares `saved_state` as an annotation — `__init__` does not assign it —
so the unset attribute is modelled as `none`; reading it then raises
(`AttributeError`). -/
structure WriteAheadLog (S C E : Type) where
  state_manager : StateManager S C E
  storage : Storage S C E
  saved_state : Option (SavedState S)

/-- Embeds `WriteAheadLog.__init__`: stores the state manager and storage and
leaves `saved_state` unset. -/
def WriteAheadLog.init (sm : StateManager S C E) (st : Storage S C E) :
    WriteAheadLog S C E :=
  ⟨sm, st, none⟩

/-- Embeds the state of `_AtomicStateChangeDispatcher`: the scope's cloned
state manager, the storage as staged inside the open transaction, and
`last_state_change_id` (initially `None`). -/
structure Dispatcher (S C E : Type) where
  state_manager : StateManager S C E
  storage : Storage S C E
  last_state_change_id : Option Nat

/-- Embeds `_AtomicStateChangeDispatcher.write_state_change_and_events`: write
the state change under a fresh StateChangeID, then write every event tagged
with that StateChangeID under fresh EventIDs, all into the open transaction;
returns the assigned StateChangeID. -/
def write_state_change_and_events (st : Storage S C E) (c : C) (events : List E) :
    Storage S C E × Nat :=
  let wr := st.write_state_change c
  (wr.1.write_events wr.2 events, wr.2)

/-- Embeds `_AtomicStateChangeDispatcher.dispatch`: apply the state change on
the scope's cloned manager, persist the state change and its events to the
open transaction, record the assigned id as `last_state_change_id`, and
return the events.  `none` models the transition function raising, which
propagates out of the scope body. -/
def Dispatcher.dispatch (d : Dispatcher S C E) (c : C) :
    Option (Dispatcher S C E × List E) :=
  match d.state_manager.dispatch c with
  | none => none
  | some (sm2, events) =>
    let wr := write_state_change_and_events d.storage c events
    some (⟨sm2, wr.1, some wr.2⟩, events)

/-- Embeds `_AtomicStateChangeDispatcher.latest_state`. -/
def Dispatcher.latest_state (d : Dispatcher S C E) : S :=
  d.state_manager.current_state

/-- One step of a commit-scope body: either a `dispatch` call, or any other
failure raised by the body itself. -/
inductive ScopeAction (C : Type) where
  | dispatchSC : C → ScopeAction C
  | bodyFails : ScopeAction C

/-- Runs a commit-scope body, a sequence of `dispatch` calls possibly ending
in a failure, on the scope's dispatcher.  `none` models any error escaping
the scope body (a transition failure inside `dispatch`, or the body's own
failure). -/
def runScopeBody (d : Dispatcher S C E) : List (ScopeAction C) → Option (Dispatcher S C E)
  | [] => some d
  | .bodyFails :: _ => none
  | .dispatchSC c :: rest =>
    match d.dispatch c with
    | none => none
    | some (d2, _) => runScopeBody d2 rest

/-- Embeds `WriteAheadLog.process_state_change_atomically` run over a whole
scope body: under the lock, clone the state manager, open a storage
transaction, run the body with a fresh dispatcher; on normal completion
commit the transaction, promote the clone, and — only if a dispatch happened
— replace `saved_state` in a single assignment with the pair of the last
dispatched state change's id and the promoted manager's current state.  On
any failure the transaction is rolled back (the staged storage is discarded)
and the write-ahead log is left untouched; the returned flag is `false` and
the error propagates to the caller. -/
def process_state_change_atomically (wal : WriteAheadLog S C E)
    (body : List (ScopeAction C)) : WriteAheadLog S C E × Bool :=
  let d0 : Dispatcher S C E := ⟨wal.state_manager.copy, wal.storage, none⟩
  match runScopeBody d0 body with
  | none => (wal, false)
  | some d =>
    let committed : WriteAheadLog S C E := ⟨d.state_manager, d.storage, wal.saved_state⟩
    match d.last_state_change_id with
    | none => (committed, true)
    | some id =>
      ({ committed with saved_state := some ⟨id, d.state_manager.current_state⟩ }, true)

/-- Embeds `WriteAheadLog.snapshot`: under the lock, read the authoritative
manager's current state and `saved_state.state_change_id`, and persist them
as a snapshot together with the caller's `statechange_qty`.  When
`saved_state` was never assigned, the attribute read raises
(`AttributeError`), modelled as `none`.  (The Python guard
`if state_change_id and current_state is not None` always holds once the
attribute read succeeded: a ULID is a non-empty byte string, hence truthy,
and the modelled current state is never `None`.) -/
def WriteAheadLog.snapshot (wal : WriteAheadLog S C E) (statechange_qty : Nat) :
    Option (WriteAheadLog S C E) :=
  match wal.saved_state with
  | none => none
  | some ss =>
    some { wal with
      storage := wal.storage.write_state_snapshot
        wal.state_manager.current_state (Ulid.real ss.state_change_id) statechange_qty }

/-- Embeds `WriteAheadLog.get_current_state`. -/
def WriteAheadLog.get_current_state (wal : WriteAheadLog S C E) : S :=
  wal.state_manager.current_state

/-- One externally visible operation on the write-ahead log: a full commit
scope, or a snapshot request. -/
inductive WalOp (C : Type) where
  | scope : List (ScopeAction C) → WalOp C
  | snap : Nat → WalOp C

/-- The write-ahead log resulting from one operation.  A failing scope or a
raising snapshot leaves the log as it was (the exception propagates; the
in-memory object is untouched). -/
def walStep (wal : WriteAheadLog S C E) : WalOp C → WriteAheadLog S C E
  | .scope body => (process_state_change_atomically wal body).1
  | .snap qty =>
    match wal.snapshot qty with
    | none => wal
    | some w => w

/-- Runs a sequence of operations on the write-ahead log.  The lock of
`WriteAheadLog` serializes scopes and snapshots, so a concurrent history is
some sequential order of the operations. -/
def walRun (wal : WriteAheadLog S C E) : List (WalOp C) → WriteAheadLog S C E :=
  List.foldl walStep wal

/-! ### Helper lemmas about the modelled storage and the dispatcher -/

theorem tagEvents_map_payload (start scid : Nat) (evs : List E) :
    (tagEvents (E := E) start scid evs).map (fun r => r.2.2) = evs := by
  induction evs generalizing start with
  | nil => rfl
  | cons e rest ih => simp [tagEvents, ih]

theorem tagEvents_tag (start scid : Nat) (evs : List E) :
    ∀ r ∈ tagEvents (E := E) start scid evs, r.2.1 = scid := by
  induction evs generalizing start with
  | nil => intro r hr; simp [tagEvents] at hr
  | cons e rest ih =>
    intro r hr
    simp only [tagEvents, List.mem_cons] at hr
    rcases hr with rfl | hr
    · rfl
    · exact ih (start + 1) r hr

theorem write_events_spec (scid : Nat) (evs : List E) (st : Storage S C E) :
    st.write_events scid evs =
      { st with
          events := st.events ++ tagEvents st.next_event_id scid evs,
          next_event_id := st.next_event_id + evs.length } := by
  induction evs generalizing st with
  | nil => simp [Storage.write_events, tagEvents]
  | cons e rest ih =>
    simp only [Storage.write_events, tagEvents]
    rw [ih]
    simp [List.append_assoc, Nat.add_comm, Nat.add_left_comm, Nat.add_assoc]

theorem dispatch_none (d : Dispatcher S C E) (c : C)
    (h : d.state_manager.dispatch c = none) : d.dispatch c = none := by
  simp [Dispatcher.dispatch, h]

theorem dispatch_some (d : Dispatcher S C E) (c : C) (sm2 : StateManager S C E) (evs : List E)
    (h : d.state_manager.dispatch c = some (sm2, evs)) :
    d.dispatch c = some (⟨sm2, (write_state_change_and_events d.storage c evs).1,
      some (write_state_change_and_events d.storage c evs).2⟩, evs) := by
  simp [Dispatcher.dispatch, h]

theorem write_state_change_and_events_spec (st : Storage S C E) (c : C) (evs : List E) :
    write_state_change_and_events st c evs =
      ({ st with
          state_changes := st.state_changes ++ [(st.next_state_change_id, c)],
          events := st.events ++ tagEvents st.next_event_id st.next_state_change_id evs,
          next_state_change_id := st.next_state_change_id + 1,
          next_event_id := st.next_event_id + evs.length },
        st.next_state_change_id) := by
  simp only [write_state_change_and_events, Storage.write_state_change]
  rw [write_events_spec]

theorem dispatch_storage_eq (d : Dispatcher S C E) (c : C) (d2 : Dispatcher S C E)
    (evs : List E) (h : d.dispatch c = some (d2, evs)) :
    d2.storage =
      { d.storage with
          state_changes := d.storage.state_changes ++ [(d.storage.next_state_change_id, c)],
          events := d.storage.events ++
            tagEvents d.storage.next_event_id d.storage.next_state_change_id evs,
          next_state_change_id := d.storage.next_state_change_id + 1,
          next_event_id := d.storage.next_event_id + evs.length }
      ∧ d2.last_state_change_id = some d.storage.next_state_change_id := by
  cases hsm : d.state_manager.dispatch c with
  | none => rw [dispatch_none d c hsm] at h; cases h
  | some p =>
    obtain ⟨sm2, evs2⟩ := p
    rw [dispatch_some d c sm2 evs2 hsm] at h
    simp only [Option.some.injEq, Prod.mk.injEq] at h
    obtain ⟨h1, h2⟩ := h
    subst h2
    rw [← h1]
    rw [write_state_change_and_events_spec]
    exact ⟨rfl, rfl⟩

theorem dispatch_sets_last (d : Dispatcher S C E) (c : C) (d2 : Dispatcher S C E)
    (evs : List E) (h : d.dispatch c = some (d2, evs)) :
    d2.last_state_change_id = some d.storage.next_state_change_id :=
  (dispatch_storage_eq d c d2 evs h).2

/-! ### Helper lemmas about running a scope body -/

theorem runScopeBody_some_last (body : List (ScopeAction C)) (d d' : Dispatcher S C E)
    (h : runScopeBody d body = some d') (i : Nat) (hi : d.last_state_change_id = some i) :
    ∃ j, d'.last_state_change_id = some j := by
  induction body generalizing d i with
  | nil =>
    simp only [runScopeBody, Option.some.injEq] at h
    exact ⟨i, h ▸ hi⟩
  | cons a rest ih =>
    cases a with
    | bodyFails => simp [runScopeBody] at h
    | dispatchSC c =>
      simp only [runScopeBody] at h
      cases hd : d.dispatch c with
      | none => rw [hd] at h; cases h
      | some p =>
        rw [hd] at h
        exact ih p.1 h d.storage.next_state_change_id
          (dispatch_sets_last d c p.1 p.2 (by rw [hd]))

theorem runScopeBody_last_none (body : List (ScopeAction C)) (d d' : Dispatcher S C E)
    (h : runScopeBody d body = some d') (h2 : d'.last_state_change_id = none) :
    d' = d ∧ body = [] := by
  cases body with
  | nil =>
    simp only [runScopeBody, Option.some.injEq] at h
    exact ⟨h.symm, rfl⟩
  | cons a rest =>
    cases a with
    | bodyFails => simp [runScopeBody] at h
    | dispatchSC c =>
      simp only [runScopeBody] at h
      cases hd : d.dispatch c with
      | none => rw [hd] at h; cases h
      | some p =>
        rw [hd] at h
        obtain ⟨j, hj⟩ := runScopeBody_some_last rest p.1 d' h
          d.storage.next_state_change_id (dispatch_sets_last d c p.1 p.2 (by rw [hd]))
        rw [hj] at h2
        cases h2

/-- The recorded `last_state_change_id`, when set, is the identifier of the
last state-change row present in storage. -/
def lastIdMatches (d : Dispatcher S C E) : Prop :=
  ∀ id, d.last_state_change_id = some id →
    (d.storage.state_changes.map Prod.fst).getLast? = some id

theorem runScopeBody_lastIdMatches (body : List (ScopeAction C)) (d d' : Dispatcher S C E)
    (h : runScopeBody d body = some d') (hd : lastIdMatches d) : lastIdMatches d' := by
  induction body generalizing d with
  | nil =>
    simp only [runScopeBody, Option.some.injEq] at h
    exact h ▸ hd
  | cons a rest ih =>
    cases a with
    | bodyFails => simp [runScopeBody] at h
    | dispatchSC c =>
      simp only [runScopeBody] at h
      cases hdc : d.dispatch c with
      | none => rw [hdc] at h; cases h
      | some p =>
        rw [hdc] at h
        refine ih p.1 h ?_
        intro id hid
        obtain ⟨hst, hlast⟩ := dispatch_storage_eq d c p.1 p.2 (by rw [hdc])
        rw [hlast] at hid
        rw [hst]
        simp only [Option.some.injEq] at hid
        subst hid
        simp only [List.map_append, List.map_cons, List.map_nil]
        exact List.getLast?_concat _

theorem mem_of_getLast?_mem {α : Type} {l : List α} {x : α} (h : x ∈ l.getLast?) : x ∈ l := by
  obtain ⟨hne, hx⟩ := List.mem_getLast?_eq_getLast h
  rw [hx]
  exact List.getLast_mem hne

/-! ### Strictly increasing identifiers -/

/-- The storage's state-change identifiers are strictly increasing in append
order and the ULID factory stands strictly above all of them. -/
def Storage.idsOk (st : Storage S C E) : Prop :=
  List.Chain' (fun a b => a < b) (st.state_changes.map Prod.fst) ∧
    ∀ p ∈ st.state_changes, p.1 < st.next_state_change_id

theorem idsOk_dispatch (d : Dispatcher S C E) (c : C) (d2 : Dispatcher S C E) (evs : List E)
    (h : d.dispatch c = some (d2, evs)) (hok : d.storage.idsOk) : d2.storage.idsOk := by
  obtain ⟨hst, -⟩ := dispatch_storage_eq d c d2 evs h
  rw [hst]
  obtain ⟨hchain, hbound⟩ := hok
  constructor
  · simp only [List.map_append, List.map_cons, List.map_nil]
    rw [List.chain'_append]
    refine ⟨hchain, List.chain'_singleton _, ?_⟩
    intro x hx y hy
    simp only [List.head?_cons, Option.mem_def, Option.some.injEq] at hy
    subst hy
    obtain ⟨p, hp, hpx⟩ := List.mem_map.mp (mem_of_getLast?_mem hx)
    rw [← hpx]
    exact hbound p hp
  · intro p hp
    rcases List.mem_append.mp hp with hp | hp
    · exact Nat.lt_trans (hbound p hp) (Nat.lt_succ_self _)
    · rcases List.mem_singleton.mp hp with rfl
      exact Nat.lt_succ_self _

theorem idsOk_runScopeBody (body : List (ScopeAction C)) (d d' : Dispatcher S C E)
    (h : runScopeBody d body = some d') (hok : d.storage.idsOk) : d'.storage.idsOk := by
  induction body generalizing d with
  | nil =>
    simp only [runScopeBody, Option.some.injEq] at h
    exact h ▸ hok
  | cons a rest ih =>
    cases a with
    | bodyFails => simp [runScopeBody] at h
    | dispatchSC c =>
      simp only [runScopeBody] at h
      cases hd : d.dispatch c with
      | none => rw [hd] at h; cases h
      | some p =>
        rw [hd] at h
        exact ih p.1 h (idsOk_dispatch d c p.1 p.2 (by rw [hd]) hok)

theorem idsOk_process (wal : WriteAheadLog S C E) (body : List (ScopeAction C))
    (hok : wal.storage.idsOk) :
    (process_state_change_atomically wal body).1.storage.idsOk := by
  simp only [process_state_change_atomically]
  split
  · exact hok
  · rename_i d hr
    split
    · exact idsOk_runScopeBody body _ d hr hok
    · exact idsOk_runScopeBody body _ d hr hok

theorem idsOk_snapshot (wal : WriteAheadLog S C E) (qty : Nat) (w2 : WriteAheadLog S C E)
    (h : wal.snapshot qty = some w2) (hok : wal.storage.idsOk) : w2.storage.idsOk := by
  unfold WriteAheadLog.snapshot at h
  cases hss : wal.saved_state with
  | none => rw [hss] at h; cases h
  | some ss =>
    rw [hss] at h
    simp only [Option.some.injEq] at h
    rw [← h]
    exact hok

theorem idsOk_walStep (wal : WriteAheadLog S C E) (op : WalOp C)
    (hok : wal.storage.idsOk) : (walStep wal op).storage.idsOk := by
  cases op with
  | scope body => exact idsOk_process wal body hok
  | snap qty =>
    simp only [walStep]
    cases h : wal.snapshot qty with
    | none => exact hok
    | some w2 => exact idsOk_snapshot wal qty w2 h hok

theorem idsOk_walRun (ops : List (WalOp C)) (wal : WriteAheadLog S C E)
    (hok : wal.storage.idsOk) : (walRun wal ops).storage.idsOk := by
  induction ops generalizing wal with
  | nil => exact hok
  | cons op rest ih => exact ih (walStep wal op) (idsOk_walStep wal op hok)

/-! ### The saved-state/current-state synchronization invariant -/

/-- Invariant: `saved_state`, once set, carries exactly the authoritative
manager's current state. -/
def savedOk (wal : WriteAheadLog S C E) : Prop :=
  ∀ ss, wal.saved_state = some ss → ss.state = wal.state_manager.current_state

theorem savedOk_process (wal : WriteAheadLog S C E) (body : List (ScopeAction C))
    (h : savedOk wal) : savedOk (process_state_change_atomically wal body).1 := by
  simp only [process_state_change_atomically]
  split
  · exact h
  · rename_i d hr
    split
    · rename_i hl
      obtain ⟨hd, -⟩ := runScopeBody_last_none body _ d hr hl
      intro ss hss
      rw [hd]
      exact h ss hss
    · rename_i id hl
      intro ss hss
      simp only [Option.some.injEq] at hss
      rw [← hss]

theorem snapshot_step_preserves (wal : WriteAheadLog S C E) (qty : Nat) :
    (walStep wal (WalOp.snap qty)).saved_state = wal.saved_state ∧
    (walStep wal (WalOp.snap qty)).state_manager = wal.state_manager := by
  simp only [walStep, WriteAheadLog.snapshot]
  cases hss : wal.saved_state with
  | none => exact ⟨hss, rfl⟩
  | some ss => exact ⟨rfl, rfl⟩

theorem savedOk_walStep (wal : WriteAheadLog S C E) (op : WalOp C) (h : savedOk wal) :
    savedOk (walStep wal op) := by
  cases op with
  | scope body => exact savedOk_process wal body h
  | snap qty =>
    intro ss hss
    obtain ⟨h1, h2⟩ := snapshot_step_preserves wal qty
    rw [h1] at hss
    rw [h2]
    exact h ss hss

theorem savedOk_walRun (ops : List (WalOp C)) (wal : WriteAheadLog S C E) (h : savedOk wal) :
    savedOk (walRun wal ops) := by
  induction ops generalizing wal with
  | nil => exact h
  | cons op rest ih => exact ih (walStep wal op) (savedOk_walStep wal op h)

/-! ### Concrete instances used by the witnesses -/

/-- An empty store: no rows, both ULID factories at zero. -/
def emptyStorage : Storage Nat Nat Nat := ⟨[], [], [], 0, 0⟩

/-- A total transition: add the state change to the state, emit one event. -/
def addTransition : TransitionFunction Nat Nat Nat :=
  fun s c => some (s + c, [c + 10])

/-- A transition that fails on the state change `2` (the spec's Scenario D). -/
def failTwoTransition : TransitionFunction Nat Nat Nat :=
  fun s c => if c = 2 then none else some (s + c, [c + 10])

/-- A write-ahead log over an empty store, authoritative state `0`. -/
def walScopeDemo : WriteAheadLog Nat Nat Nat :=
  WriteAheadLog.init ⟨addTransition, 0⟩ emptyStorage

/-- The dispatcher state after dispatching `5` in a scope on `walScopeDemo`. -/
def dispatcherScopeDemo : Dispatcher Nat Nat Nat :=
  ⟨⟨addTransition, 5⟩, ⟨[(0, 5)], [(0, 0, 15)], [], 1, 1⟩, some 0⟩

/-- A fresh dispatcher over an empty store with current state `3`. -/
def dispatcherDemo : Dispatcher Nat Nat Nat := ⟨⟨addTransition, 3⟩, emptyStorage, none⟩

/-- A store holding a snapshot `(10, id 1, qty 1)` and state changes with
identifiers 1, 2, 3 and payloads 4, 5, 6. -/
def storageRestoreDemo : Storage Nat Nat Nat :=
  ⟨[(1, 4), (2, 5), (3, 6)], [], [⟨10, Ulid.real 1, 1⟩], 4, 0⟩

/-! ### The claims -/

/-- C1: if the body of a commit scope opened by
`process_state_change_atomically` raises any error, the storage transaction
is rolled back, the cloned state manager is discarded, and both the
authoritative state manager and `saved_state` of the `WriteAheadLog` are
exactly what they were before the scope was opened. -/
theorem scope_failure_rolls_back (wal : WriteAheadLog S C E) (body : List (ScopeAction C))
    (h : runScopeBody ⟨wal.state_manager.copy, wal.storage, none⟩ body = none) :
    process_state_change_atomically wal body = (wal, false) := by
  simp only [process_state_change_atomically, h]

/-- Witness for C1, the spec's Scenario D: a scope dispatches `1` (which
succeeds) and then `2`, whose transition function fails; the store keeps
zero new rows and the write-ahead log is unchanged. -/
theorem scope_failure_rolls_back_witness :
    process_state_change_atomically
      (WriteAheadLog.init ⟨failTwoTransition, 0⟩ emptyStorage)
      [ScopeAction.dispatchSC 1, ScopeAction.dispatchSC 2] =
      (WriteAheadLog.init ⟨failTwoTransition, 0⟩ emptyStorage, false) :=
  scope_failure_rolls_back _ _ rfl

/-- C2: on normal completion of a commit scope the transaction is committed
and the scope's cloned state manager replaces the authoritative one; if at
least one dispatch occurred, `saved_state` is replaced in a single assignment
by the pair of the last dispatched state change's id and the clone's current
state; if zero dispatches occurred (exactly when the scope body is empty),
`saved_state` is left unchanged.  The recorded id is the identifier of the
last state-change row in storage. -/
theorem scope_success_commits_and_promotes (wal : WriteAheadLog S C E)
    (body : List (ScopeAction C)) (d : Dispatcher S C E)
    (h : runScopeBody ⟨wal.state_manager.copy, wal.storage, none⟩ body = some d) :
    (d.last_state_change_id = none →
      process_state_change_atomically wal body =
        (⟨d.state_manager, d.storage, wal.saved_state⟩, true))
    ∧ (∀ id, d.last_state_change_id = some id →
      process_state_change_atomically wal body =
        (⟨d.state_manager, d.storage, some ⟨id, d.state_manager.current_state⟩⟩, true))
    ∧ (d.last_state_change_id = none ↔ body = [])
    ∧ (∀ id, d.last_state_change_id = some id →
      (d.storage.state_changes.map Prod.fst).getLast? = some id) := by
  refine ⟨?_, ?_, ?_, ?_⟩
  · intro hl
    simp only [process_state_change_atomically, h, hl]
  · intro id hl
    simp only [process_state_change_atomically, h, hl]
  · constructor
    · intro hl
      exact (runScopeBody_last_none body _ d h hl).2
    · intro hb
      subst hb
      simp only [runScopeBody, Option.some.injEq] at h
      rw [← h]
  · exact runScopeBody_lastIdMatches body _ d h (fun id hid => by cases hid)

/-- Witness for C2: a scope dispatching the single state change `5` commits
the row under id 0, promotes the clone (state `5`) and sets `saved_state`
to `(0, 5)`. -/
theorem scope_success_commits_and_promotes_witness :
    process_state_change_atomically walScopeDemo [ScopeAction.dispatchSC 5] =
      (⟨⟨addTransition, 5⟩, ⟨[(0, 5)], [(0, 0, 15)], [], 1, 1⟩, some ⟨0, 5⟩⟩, true) :=
  (scope_success_commits_and_promotes walScopeDemo [ScopeAction.dispatchSC 5]
    dispatcherScopeDemo rfl).2.1 0 rfl

/-- C3 (failing input): on a freshly constructed `WriteAheadLog`, before any
state change has ever been committed, `snapshot` reads the never-assigned
`saved_state` attribute and raises (`AttributeError`, modelled as `none`)
instead of being a no-op that writes nothing and raises nothing. -/
theorem snapshot_before_first_commit_raises :
    (WriteAheadLog.init (⟨addTransition, 0⟩ : StateManager Nat Nat Nat)
      emptyStorage).snapshot 0 = none :=
  rfl

/-- C4: with a snapshot present, `restore_or_init_snapshot` returns that
snapshot's `(state, state_change_identifier, state_change_qty)` verbatim and
writes nothing; with no snapshot present it persists `initial_state` as the
single first snapshot at the LOW sentinel and returns
`(initial_state, LOW, 0)`. -/
theorem restore_or_init_snapshot_spec (storage : Storage S C E) (s0 : S) :
    (∀ snap, storage.get_snapshot_before_state_change Ulid.high = some snap →
      restore_or_init_snapshot storage s0 =
        (storage, (snap.data, snap.state_change_identifier, snap.state_change_qty)))
    ∧ (storage.get_snapshot_before_state_change Ulid.high = none →
      restore_or_init_snapshot storage s0 =
        ({ storage with snapshots := storage.snapshots ++ [⟨s0, Ulid.low, 0⟩] },
          (s0, Ulid.low, 0))) := by
  constructor
  · intro snap hs
    simp only [restore_or_init_snapshot, hs]
  · intro hs
    simp only [restore_or_init_snapshot, hs, Storage.write_first_state_snapshot]

/-- Witness for C4, the spec's Scenario A: on an empty store,
`restore_or_init_snapshot` with initial state `7` persists exactly one
snapshot, at LOW with count 0, and returns `(7, LOW, 0)`. -/
theorem restore_or_init_snapshot_spec_witness :
    restore_or_init_snapshot emptyStorage 7 =
      ({ emptyStorage with snapshots := [⟨7, Ulid.low, 0⟩] }, (7, Ulid.low, 0)) :=
  (restore_or_init_snapshot_spec emptyStorage 7).2 rfl

/-- C5: `restore_state` returns `None` when no snapshot with StateChangeID
`≤ state_change_id` exists; otherwise it replays, on top of the snapshot's
state, exactly the persisted state changes whose id lies in
`(snapshot.StateChangeID, state_change_id]` — exclusive of the snapshot's
own id, inclusive of the upper bound. -/
theorem restore_state_spec (f : TransitionFunction S C E) (storage : Storage S C E)
    (bound : Ulid) :
    (storage.get_snapshot_before_state_change bound = none →
      restore_state f storage bound = some none)
    ∧ (∀ snap, storage.get_snapshot_before_state_change bound = some snap →
      restore_state f storage bound =
        (applyMany f snap.data
          ((storage.state_changes.filter
            (fun p => Ulid.lt snap.state_change_identifier (Ulid.real p.1) &&
              Ulid.le (Ulid.real p.1) bound)).map Prod.snd)).map
          (fun s => some s)) := by
  constructor
  · intro hs
    simp only [restore_state, hs]
  · intro snap hs
    simp only [restore_state, hs, Storage.get_statechanges_by_range,
      StateManager.initReplay, Option.map_map]
    rfl

/-- Witness for C5: the store holds a snapshot `(10, id 1, qty 1)` and rows
with ids 1, 2, 3 carrying payloads 4, 5, 6; restoring as of id 3 replays
only payloads 5 and 6 (id 1 excluded, id 3 included): `10 + 5 + 6 = 21`. -/
theorem restore_state_spec_witness :
    storageRestoreDemo.get_snapshot_before_state_change (Ulid.real 3) =
      some ⟨10, Ulid.real 1, 1⟩ ∧
    restore_state addTransition storageRestoreDemo (Ulid.real 3) = some (some 21) :=
  ⟨rfl, ((restore_state_spec addTransition storageRestoreDemo (Ulid.real 3)).2
    ⟨10, Ulid.real 1, 1⟩ rfl).trans rfl⟩

/-- C6: `dispatch` applies the state change to the scope's cloned state
manager, writes the state change row under a freshly assigned StateChangeID
and every produced event tagged with that same id into the open transaction,
records that id as the latest seen in the scope, and returns the produced
events.  The tagged rows carry exactly the produced events in order. -/
theorem dispatch_writes_and_records (d : Dispatcher S C E) (c : C)
    (sm2 : StateManager S C E) (evs : List E)
    (h : d.state_manager.dispatch c = some (sm2, evs)) :
    d.dispatch c =
      some (⟨sm2,
        { d.storage with
            state_changes := d.storage.state_changes ++ [(d.storage.next_state_change_id, c)],
            events := d.storage.events ++
              tagEvents d.storage.next_event_id d.storage.next_state_change_id evs,
            next_state_change_id := d.storage.next_state_change_id + 1,
            next_event_id := d.storage.next_event_id + evs.length },
        some d.storage.next_state_change_id⟩, evs)
    ∧ (tagEvents d.storage.next_event_id d.storage.next_state_change_id evs).map
        (fun r => r.2.2) = evs
    ∧ ∀ r ∈ tagEvents d.storage.next_event_id d.storage.next_state_change_id evs,
        r.2.1 = d.storage.next_state_change_id := by
  refine ⟨?_, tagEvents_map_payload _ _ _, tagEvents_tag _ _ _⟩
  rw [dispatch_some d c sm2 evs h, write_state_change_and_events_spec]

/-- Witness for C6: dispatching `4` on a dispatcher with current state `3`
over the empty store writes the row `(0, 4)`, the event row `(0, 0, 14)`,
records id 0 and returns `[14]`. -/
theorem dispatch_writes_and_records_witness :
    dispatcherDemo.dispatch 4 =
      some (⟨⟨addTransition, 7⟩, ⟨[(0, 4)], [(0, 0, 14)], [], 1, 1⟩, some 0⟩, [14]) :=
  ((dispatch_writes_and_records dispatcherDemo 4 ⟨addTransition, 7⟩ [14] rfl).1).trans rfl

/-- C7: `replay_unapplied_state_changes` on a range holding no persisted
state changes returns count 0 and the snapshot state unchanged. -/
theorem replay_empty_range_returns_snapshot (f : TransitionFunction S C E)
    (storage : Storage S C E) (r : Range) (s : S)
    (h : storage.get_statechanges_by_range r = []) :
    replay_unapplied_state_changes f storage r s = some (0, s) := by
  simp [replay_unapplied_state_changes, h, StateManager.initReplay, applyMany]

/-- Witness for C7: an empty store over the full `(LOW, HIGH]` range. -/
theorem replay_empty_range_returns_snapshot_witness :
    replay_unapplied_state_changes addTransition emptyStorage ⟨Ulid.low, Ulid.high⟩ 9 =
      some (0, 9) :=
  replay_empty_range_returns_snapshot addTransition emptyStorage ⟨Ulid.low, Ulid.high⟩ 9 rfl

/-- C8: over any sequence of operations (commit scopes and snapshots, each
run atomically under the log's guard), the StateChangeIDs in storage are
strictly increasing in commit order. -/
theorem committed_ids_strictly_increasing (wal : WriteAheadLog S C E) (ops : List (WalOp C))
    (h : wal.storage.idsOk) :
    List.Chain' (fun a b => a < b) ((walRun wal ops).storage.state_changes.map Prod.fst) :=
  (idsOk_walRun ops wal h).1

/-- Witness for C8: two committed scopes dispatch `1` and then `2`; the ids
in storage are `[0, 1]`, strictly increasing. -/
theorem committed_ids_strictly_increasing_witness :
    List.Chain' (fun a b => a < b)
      ((walRun walScopeDemo [WalOp.scope [ScopeAction.dispatchSC 1],
        WalOp.scope [ScopeAction.dispatchSC 2]]).storage.state_changes.map Prod.fst) :=
  committed_ids_strictly_increasing walScopeDemo _
    ⟨List.chain'_nil, fun p hp => absurd hp (List.not_mem_nil p)⟩

/-- C9: calling `restore_or_init_snapshot` a second time on a store already
initialized by a first call returns the same triple as the first call and
does not write a second initial snapshot. -/
theorem restore_or_init_snapshot_idempotent (storage : Storage S C E) (s s2 : S) :
    restore_or_init_snapshot (restore_or_init_snapshot storage s).1 s2 =
      restore_or_init_snapshot storage s := by
  cases hs : storage.get_snapshot_before_state_change Ulid.high with
  | some snap => simp only [restore_or_init_snapshot, hs]
  | none =>
    have h2 : (storage.write_first_state_snapshot s).get_snapshot_before_state_change
        Ulid.high = some ⟨s, Ulid.low, 0⟩ := by
      unfold Storage.get_snapshot_before_state_change at hs ⊢
      unfold Storage.write_first_state_snapshot
      rw [List.foldl_append, hs]
      simp [Ulid.le]
    simp only [restore_or_init_snapshot, hs, h2]

/-- C10: `saved_state` is unset by the constructor and only a normally
completed scope with at least one dispatch assigns it; `snapshot` before any
such commit reads the unset attribute and raises (`none`) rather than doing
nothing; failed scopes, zero-dispatch scopes and snapshot calls never change
`saved_state`; whenever `saved_state` is set it carries exactly the
authoritative manager's current state, and `snapshot` then persists that
current state tagged with `saved_state.state_change_id` and the caller's
count. -/
theorem saved_state_lifecycle (sm : StateManager S C E) (st : Storage S C E) :
    (WriteAheadLog.init sm st).saved_state = none
    ∧ (∀ wal : WriteAheadLog S C E, ∀ qty, wal.saved_state = none →
        wal.snapshot qty = none)
    ∧ (∀ wal : WriteAheadLog S C E, ∀ qty,
        (walStep wal (WalOp.snap qty)).saved_state = wal.saved_state)
    ∧ (∀ wal : WriteAheadLog S C E, ∀ body,
        runScopeBody ⟨wal.state_manager.copy, wal.storage, none⟩ body = none →
        (process_state_change_atomically wal body).1.saved_state = wal.saved_state)
    ∧ (∀ wal : WriteAheadLog S C E, ∀ body d,
        runScopeBody ⟨wal.state_manager.copy, wal.storage, none⟩ body = some d →
        d.last_state_change_id = none →
        (process_state_change_atomically wal body).1.saved_state = wal.saved_state)
    ∧ (∀ ops : List (WalOp C), ∀ ss,
        (walRun (WriteAheadLog.init sm st) ops).saved_state = some ss →
        ss.state = (walRun (WriteAheadLog.init sm st) ops).state_manager.current_state)
    ∧ (∀ wal : WriteAheadLog S C E, ∀ ss qty, wal.saved_state = some ss →
        wal.snapshot qty =
          some { wal with
                 storage := wal.storage.write_state_snapshot
                   wal.state_manager.current_state (Ulid.real ss.state_change_id) qty }) := by
  refine ⟨rfl, ?_, ?_, ?_, ?_, ?_, ?_⟩
  · intro wal qty h
    simp only [WriteAheadLog.snapshot, h]
  · intro wal qty
    exact (snapshot_step_preserves wal qty).1
  · intro wal body h
    simp only [process_state_change_atomically, h]
  · intro wal body d h hl
    simp only [process_state_change_atomically, h, hl]
  · intro ops ss h
    exact savedOk_walRun ops (WriteAheadLog.init sm st) (fun s2 hs2 => by cases hs2) ss h
  · intro wal ss qty h
    simp only [WriteAheadLog.snapshot, h]

/-- Witness for C10: on a fresh log, `saved_state` is unset and `snapshot`
raises. -/
theorem saved_state_lifecycle_witness :
    (WriteAheadLog.init (⟨addTransition, 0⟩ : StateManager Nat Nat Nat)
      emptyStorage).saved_state = none
    ∧ (WriteAheadLog.init (⟨addTransition, 0⟩ : StateManager Nat Nat Nat)
      emptyStorage).snapshot 3 = none :=
  ⟨(saved_state_lifecycle ⟨addTransition, 0⟩ emptyStorage).1,
    (saved_state_lifecycle ⟨addTransition, 0⟩ emptyStorage).2.1 _ 3 rfl⟩

end RaidenWal
